import Mathlib

/-!
Verification of `scripts/generate_agenda.py` (KubeStellar community repo).

A shallow embedding of the agenda-generator script.  Pure loops become
structural recursions; the GitHub API client, the system clock and
`dateutil.parser` are external collaborators, modelled as explicit inputs
(an `Env` record of per-repository responses, an `Int` Unix timestamp, and
an ISO-date parser).  Fallible operations return `Option`/`Except`.
Timestamps are seconds as `Int`; `timedelta.days` is floor division by
86400; `datetime` calendar arithmetic is proleptic-Gregorian ordinal
arithmetic, exactly as in CPython's `date.toordinal`/`fromordinal`.
-/

/-! ## Calendar model (CPython proleptic Gregorian ordinals) -/

/-- A calendar date, the date part of a Python `datetime`. -/
structure Date where
  year : Int
  month : Nat
  day : Nat
deriving DecidableEq, Repr

/-- Days relative to 1970-01-01 of a civil date (standard Gregorian
conversion, Euclidean division makes the quotients floor for the positive
divisors used here). -/
def days_from_civil (dt : Date) : Int :=
  let y : Int := if dt.month ≤ 2 then dt.year - 1 else dt.year
  let era : Int := y.ediv 400
  let yoe : Nat := (y - era * 400).toNat
  let mp : Nat := if 2 < dt.month then dt.month - 3 else dt.month + 9
  let doy : Nat := (153 * mp + 2) / 5 + dt.day - 1
  let doe : Nat := yoe * 365 + yoe / 4 - yoe / 100 + doy
  era * 146097 + (doe : Int) - 719468

/-- Civil date of a day count relative to 1970-01-01 (standard Gregorian
conversion). -/
def civil_from_days (z0 : Int) : Date :=
  let z : Int := z0 + 719468
  let era : Int := z.ediv 146097
  let doe : Nat := (z - era * 146097).toNat
  let yoe : Nat := (doe - doe / 1460 + doe / 36524 - doe / 146096) / 365
  let y : Int := (yoe : Int) + era * 400
  let doy : Nat := doe - (365 * yoe + yoe / 4 - yoe / 100)
  let mp : Nat := (5 * doy + 2) / 153
  let d : Nat := doy - (153 * mp + 2) / 5 + 1
  let m : Nat := if mp < 10 then mp + 3 else mp - 9
  { year := if m ≤ 2 then y + 1 else y, month := m, day := d }

/-- Python `date.toordinal`: `0001-01-01` is ordinal 1. -/
def toordinal (dt : Date) : Int := days_from_civil dt + 719163

/-- Python `date.fromordinal`. -/
def fromordinal (n : Int) : Date := civil_from_days (n - 719163)

/-- Python `datetime + timedelta(days=k)`: ordinal arithmetic. -/
def datetime_add_days (dt : Date) (k : Int) : Date := fromordinal (toordinal dt + k)

/-- Gregorian leap year (as Python's `calendar`/`datetime` use). -/
def is_leap (y : Nat) : Bool := y % 4 == 0 && (y % 100 != 0 || y % 400 == 0)

/-- Days in a month of a given year. -/
def days_in_month (y m : Nat) : Nat :=
  if m == 2 then (if is_leap y then 29 else 28)
  else if m == 4 || m == 6 || m == 9 || m == 11 then 30
  else 31

/-- Zero-padded two-digit decimal rendering (`strftime` `%m`, `%d`, `%H`, `%M`). -/
def pad2 (n : Nat) : String := if n < 10 then "0" ++ toString n else toString n

/-- Zero-padded four-digit decimal rendering (`strftime` `%Y`). -/
def pad4 (n : Int) : String :=
  if n < 0 then toString n
  else if n < 10 then "000" ++ toString n
  else if n < 100 then "00" ++ toString n
  else if n < 1000 then "0" ++ toString n
  else toString n

/-- Python `strftime("%m/%d/%Y")`. -/
def strftime_mdy (dt : Date) : String :=
  pad2 dt.month ++ ("/") ++ pad2 dt.day ++ ("/") ++ pad4 dt.year

/-- Python `strftime("%Y-%m-%d")`. -/
def strftime_ymd (dt : Date) : String :=
  pad4 dt.year ++ ("-") ++ pad2 dt.month ++ ("-") ++ pad2 dt.day

/-- Seconds per day. -/
def secs_per_day : Int := 86400

/-- Python `timedelta.days` of a duration in seconds: floor division. -/
def timedelta_days (delta : Int) : Int := delta.fdiv secs_per_day

/-- Date part of a Unix timestamp (`datetime` holding that instant). -/
def epoch_to_date (t : Int) : Date := fromordinal (t.fdiv secs_per_day + 719163)

/-- Python `strftime("%H:%M")` of a Unix timestamp. -/
def epoch_to_hm (t : Int) : String :=
  let s : Nat := (t.emod secs_per_day).toNat
  pad2 (s / 3600) ++ (":") ++ pad2 (s % 3600 / 60)

/-- Python `datetime.now().strftime("%Y-%m-%d")` with `now` the ambient clock. -/
def strftime_now_ymd (t : Int) : String := strftime_ymd (epoch_to_date t)

/-- Python `datetime.now().strftime("%Y-%m-%d %H:%M")`. -/
def strftime_now_ymd_hm (t : Int) : String :=
  strftime_ymd (epoch_to_date t) ++ (" ") ++ epoch_to_hm t

/-- Split a character list at `-` (the shape of `"y-m-d".split("-")`). -/
def split_on_dash : List Char → List (List Char)
  | [] => [[]]
  | c :: rest =>
    let r := split_on_dash rest
    if c = '-' then [] :: r
    else
      match r with
      | [] => [[c]]
      | h :: t => (c :: h) :: t

/-- The numeric value of a nonempty all-digit character list. -/
def digits_value : List Char → Option Nat
  | [] => none
  | cs => cs.foldl (fun acc? c =>
      match acc? with
      | none => none
      | some acc => if c.isDigit then some (acc * 10 + (c.toNat - 48)) else none)
      (some 0)

/-- Model of `dateutil.parser.parse`, restricted to the `YYYY-MM-DD` input format the
script documents (`--meeting-date "YYYY-MM-DD"`).  A string that does not
parse makes the library raise `ParserError`; here that is `none`. -/
def date_parser_parse (s : String) : Option Date :=
  match split_on_dash s.data with
  | [ys, ms, ds] =>
    match digits_value ys, digits_value ms, digits_value ds with
    | some y, some m, some d =>
      if 1 ≤ m ∧ m ≤ 12 ∧ 1 ≤ d ∧ d ≤ days_in_month y m then
        some { year := (y : Int), month := m, day := d }
      else none
    | _, _, _ => none
  | _ => none

/-! ## Data model (dataclasses and raw API items) -/

/-- The `PRInfo` dataclass. -/
structure PRInfo where
  number : Nat
  title : String
  author : String
  url : String
  merged_at : Option Int := none
  created_at : Option Int := none
  labels : List String := []
  days_open : Int := 0
deriving DecidableEq, Repr

/-- The `IssueInfo` dataclass. -/
structure IssueInfo where
  number : Nat
  title : String
  author : String
  url : String
  labels : List String := []
  created_at : Option Int := none
deriving DecidableEq, Repr

/-- The `DiscussionInfo` dataclass (declared by the script, never used). -/
structure DiscussionInfo where
  title : String
  url : String
  author : String
  comments : Nat
  created_at : Option Int := none
deriving DecidableEq, Repr

/-- A pull request as returned by the API client (`repo.get_pulls` item). -/
structure APIPR where
  number : Nat
  title : String
  user_login : String
  html_url : String
  merged_at : Option Int := none
  created_at : Int := 0
  updated_at : Int := 0
  labels : List String := []
deriving DecidableEq, Repr

/-- An issue as returned by the API client (`repo.get_issues` item);
`pull_request` is the truthiness of the `issue.pull_request` attribute. -/
structure APIIssue where
  number : Nat
  title : String
  user_login : String
  html_url : String
  labels : List String := []
  created_at : Int := 0
  updated_at : Int := 0
  pull_request : Bool := false
deriving DecidableEq, Repr

/-- A release as returned by the API client (`repo.get_releases` item). -/
structure APIRelease where
  tag_name : String
  html_url : String
  published_at : Option Date := none
deriving DecidableEq, Repr

/-- The dict returned by `get_release_info`. -/
structure ReleaseInfo where
  version : String
  url : String
  date : String
deriving DecidableEq, Repr

/-! ## Configuration (the `CONFIG` dict) -/

structure Config where
  repos : List String
  lookback_days : Nat
  max_prs_to_show : Nat
  max_issues_to_show : Nat
  max_discussions_to_show : Nat
  meeting_time : String
  meeting_link : String
  youtube_link : String
  slack_channel : String

/-- The script's `CONFIG` constant. -/
def CONFIG : Config :=
  { repos := ["kubestellar/kubestellar", "kubestellar/kubeflex",
      "kubestellar/ocm-status-addon", "kubestellar/docs", "kubestellar/ui"],
    lookback_days := 14,
    max_prs_to_show := 8,
    max_issues_to_show := 5,
    max_discussions_to_show := 5,
    meeting_time := "10AM ET",
    meeting_link := "https://teams.microsoft.com/l/meetup-join/...",
    youtube_link := "https://kubestellar.io/tv",
    slack_channel := "https://cloud-native.slack.com/archives/C097094RZ3M" }

/-- Python `title[:n] + "..." if len(title) > n else title`. -/
def truncate_title (n : Nat) (t : String) : String :=
  if n < t.length then t.take n ++ ("...") else t

/-! ## Fetch operations

Each operation takes the data the bounded API query would yield, or
`Except.error` when the query raises; the `try/except` of the source then
selects the loop or the fallback. -/

/-- Loop body of `get_merged_prs` (lines 101-112): keep PRs merged after the
lookback anchor, break once an item was updated before it. -/
def merged_prs_loop (lookback_date : Int) : List APIPR → List PRInfo
  | [] => []
  | pr :: rest =>
    match pr.merged_at with
    | some m =>
      if lookback_date < m then
        { number := pr.number, title := truncate_title 60 pr.title,
          author := pr.user_login, url := pr.html_url, merged_at := some m,
          labels := pr.labels } :: merged_prs_loop lookback_date rest
      else if pr.updated_at < lookback_date then [] else merged_prs_loop lookback_date rest
    | none => if pr.updated_at < lookback_date then [] else merged_prs_loop lookback_date rest

/-- The `get_merged_prs` operation: first 50 closed PRs (most recently updated first). -/
def get_merged_prs (lookback_date : Int) (resp : Except Unit (List APIPR)) : List PRInfo :=
  match resp with
  | .error _ => []
  | .ok prs => merged_prs_loop lookback_date (prs.take 50)

/-- Descending-by-`days_open` order used by `get_open_prs_needing_review`'s
final `sorted(..., key=lambda x: x.days_open, reverse=True)`. -/
def days_open_ge (a b : PRInfo) : Prop := b.days_open ≤ a.days_open

instance : DecidableRel days_open_ge := fun a b => Int.decLe b.days_open a.days_open

instance : IsTotal PRInfo days_open_ge := ⟨fun a b => le_total b.days_open a.days_open⟩

instance : IsTrans PRInfo days_open_ge := ⟨fun _ _ _ h1 h2 => le_trans h2 h1⟩

/-- Loop body of `get_open_prs_needing_review` (lines 123-134): compute
integer days open, keep PRs open at least 3 days. -/
def open_prs_loop (now : Int) : List APIPR → List PRInfo
  | [] => []
  | pr :: rest =>
    let days_open := timedelta_days (now - pr.created_at)
    if 3 ≤ days_open then
      { number := pr.number, title := truncate_title 50 pr.title,
        author := pr.user_login, url := pr.html_url,
        created_at := some pr.created_at, days_open := days_open,
        labels := pr.labels } :: open_prs_loop now rest
    else open_prs_loop now rest

/-- The `get_open_prs_needing_review` operation: first 30 open PRs, filtered, then a
stable descending sort by `days_open` (Python's `sorted` is a stable sort;
insertion sort with a reflexive-total order models it). -/
def get_open_prs_needing_review (now : Int) (resp : Except Unit (List APIPR)) : List PRInfo :=
  let prs := match resp with
    | .error _ => []
    | .ok items => open_prs_loop now (items.take 30)
  prs.insertionSort days_open_ge

/-- The label aliases scanned by `get_help_wanted_issues` (line 144). -/
def help_wanted_labels : List String :=
  ["help wanted", "good first issue", "help-wanted", "good-first-issue"]

/-- Construction of an `IssueInfo` inside `get_help_wanted_issues`. -/
def issue_to_help_info (issue : APIIssue) : IssueInfo :=
  { number := issue.number, title := truncate_title 50 issue.title,
    author := issue.user_login, url := issue.html_url,
    labels := issue.labels, created_at := some issue.created_at }

/-- One iteration of the label loop of `get_help_wanted_issues`: the inner
`try` silently skips a failing label query; otherwise every returned item
that is not a pull request is appended. -/
def help_wanted_step (label_resp : String → Except Unit (List APIIssue))
    (issues : List IssueInfo) (label_name : String) : List IssueInfo :=
  match label_resp label_name with
  | .error _ => issues
  | .ok items => issues ++ (items.filter (fun i => !i.pull_request)).map issue_to_help_info

/-- The `get_help_wanted_issues` operation: `repo_resp` is the outer `get_repo` call,
`label_resp` the per-label issue query. -/
def get_help_wanted_issues (repo_resp : Except Unit Unit)
    (label_resp : String → Except Unit (List APIIssue)) : List IssueInfo :=
  match repo_resp with
  | .error _ => []
  | .ok _ => help_wanted_labels.foldl (help_wanted_step label_resp) []

/-- Python `set.add`, modelled as first-insertion order (the script never
observes the set's iteration order). -/
def set_add (s : List String) (a : String) : List String :=
  if a ∈ s then s else s ++ [a]

/-- Loop body of `get_recent_contributors` (lines 167-169). -/
def contributors_loop (lookback_date : Int) : List APIPR → List String → List String
  | [], acc => acc
  | pr :: rest, acc =>
    match pr.merged_at with
    | some m =>
      if lookback_date < m then contributors_loop lookback_date rest (set_add acc pr.user_login)
      else contributors_loop lookback_date rest acc
    | none => contributors_loop lookback_date rest acc

/-- The `get_recent_contributors` operation: first 30 closed PRs. -/
def get_recent_contributors (lookback_date : Int) (resp : Except Unit (List APIPR)) : List String :=
  match resp with
  | .error _ => []
  | .ok prs => contributors_loop lookback_date (prs.take 30) []

/-- PR loop of `get_repo_activity_score` (lines 180-184): count while
updated after the anchor, break otherwise. -/
def activity_pr_loop (lookback_date : Int) : List APIPR → Nat
  | [] => 0
  | pr :: rest =>
    if lookback_date < pr.updated_at then 1 + activity_pr_loop lookback_date rest else 0

/-- Issue loop of `get_repo_activity_score` (lines 186-190): count non-PR
issues updated after the anchor, break once updated strictly before it. -/
def activity_issue_loop (lookback_date : Int) : List APIIssue → Nat
  | [] => 0
  | issue :: rest =>
    if !issue.pull_request && decide (lookback_date < issue.updated_at) then
      1 + activity_issue_loop lookback_date rest
    else if issue.updated_at < lookback_date then 0
    else activity_issue_loop lookback_date rest

/-- The `get_repo_activity_score` operation: the single `try` wraps both loops, so a
failing PR query yields 0 while a failing issue query keeps the PR count. -/
def get_repo_activity_score (lookback_date : Int) (pr_resp : Except Unit (List APIPR))
    (issue_resp : Except Unit (List APIIssue)) : Nat :=
  match pr_resp with
  | .error _ => 0
  | .ok prs =>
    let score := activity_pr_loop lookback_date (prs.take 30)
    match issue_resp with
    | .error _ => score
    | .ok issues => score + activity_issue_loop lookback_date (issues.take 30)

/-- Construction of an `IssueInfo` inside `get_top_issues_for_discussion`
(labels capped to 3, title to 45). -/
def issue_to_discussion_info (issue : APIIssue) : IssueInfo :=
  { number := issue.number, title := truncate_title 45 issue.title,
    author := issue.user_login, url := issue.html_url,
    labels := issue.labels.take 3, created_at := some issue.created_at }

/-- Loop of `get_top_issues_for_discussion` (lines 201-216): skip PRs, keep
issues updated in the last 30 days, stop once `limit` are collected. -/
def discussion_loop (now : Int) (limit : Nat) : List APIIssue → List IssueInfo → List IssueInfo
  | [], issues => issues
  | issue :: rest, issues =>
    if issue.pull_request then discussion_loop now limit rest issues
    else
      let issues' := if timedelta_days (now - issue.updated_at) ≤ 30 then
        issues ++ [issue_to_discussion_info issue] else issues
      if limit ≤ issues'.length then issues' else discussion_loop now limit rest issues'

/-- The `get_top_issues_for_discussion` operation: first 20 most-commented open issues. -/
def get_top_issues_for_discussion (now : Int) (resp : Except Unit (List APIIssue))
    (limit : Nat) : List IssueInfo :=
  let issues := match resp with
    | .error _ => []
    | .ok items => discussion_loop now limit (items.take 20) []
  issues.take limit

/-- The `get_release_info` operation: latest release, or the sentinel record when there is
none or the query raises. -/
def get_release_info (resp : Except Unit (List APIRelease)) : ReleaseInfo :=
  match resp with
  | .ok (latest :: _) =>
    { version := latest.tag_name, url := latest.html_url,
      date := match latest.published_at with
        | some d => strftime_ymd d
        | none => "N/A" }
  | .ok [] => { version := "Unknown", url := "#", date := "N/A" }
  | .error _ => { version := "Unknown", url := "#", date := "N/A" }

/-! ## Template rendering (`_render_template`, lines 295-410) -/

/-- The urgency marker of a stale-PR row (line 312): the lower tier for
`days_open < 14`, the higher one from 14 days up.  (The source file stores
the two emoji double-encoded; the exact code points are kept.) -/
def urgency_marker (days_open : Int) : String :=
  if days_open < 14 then "ğŸŸ " else "ğŸ”´"

/-- A stale-PR attention row (lines 313-315). -/
def stale_pr_row (pr : PRInfo) : String :=
  "| [PR #" ++ toString pr.number ++ "](" ++ pr.url ++ ") | " ++
    urgency_marker pr.days_open ++ " Open " ++ toString pr.days_open ++ "d | @" ++
    pr.author ++ " |"

/-- Python `l in ["breaking-change", "major"]`. -/
def is_breaking_label (l : String) : Bool := l == "breaking-change" || l == "major"

/-- A breaking-change attention row (lines 320-322). -/
def breaking_pr_row (pr : PRInfo) : String :=
  "| [PR #" ++ toString pr.number ++ "](" ++ pr.url ++ ") | " ++
    "ğŸš¨" ++ " Breaking change merged | @" ++ pr.author ++ " |"

/-- A help-wanted attention row (lines 326-328). -/
def help_wanted_row (issue : IssueInfo) : String :=
  "| [#" ++ toString issue.number ++ "](" ++ issue.url ++ ") | " ++
    "ğŸ†˜" ++ " Help wanted | - |"

/-- The fixed placeholder row of an empty attention table (line 330). -/
def all_clear_row : String := "| âœ… | All clear this sprint! | - |"

/-- The `attention_items` list (lines 307-328): stale open PRs out of the
first 3 (7-day threshold), breaking-change PRs out of the first 2 merged,
then the first 2 help-wanted issues. -/
def attention_items (open_prs merged_prs : List PRInfo)
    (help_wanted : List IssueInfo) : List String :=
  let items : List String := []
  let items := (open_prs.take 3).foldl
    (fun acc pr => if 7 ≤ pr.days_open then acc ++ [stale_pr_row pr] else acc) items
  let items := (merged_prs.take 2).foldl
    (fun acc pr => if pr.labels.any is_breaking_label then acc ++ [breaking_pr_row pr] else acc)
    items
  (help_wanted.take 2).foldl (fun acc issue => acc ++ [help_wanted_row issue]) items

/-- The rendered attention table (line 330): at most 5 of the collected
rows, or the fixed all-clear row when none were collected. -/
def attention_table (open_prs merged_prs : List PRInfo)
    (help_wanted : List IssueInfo) : String :=
  let items := attention_items open_prs merged_prs help_wanted
  if items.isEmpty then all_clear_row
  else String.intercalate ("\n") (items.take 5)

/-- Python `repo.split("/")[-1]` (line 337). -/
def repo_short_name (repo : String) : String := (repo.splitOn ("/")).getLastD repo

/-- One issue line of the discussion section (lines 340-341). -/
def discussion_issue_line (issue : IssueInfo) : String :=
  let labels_str := if issue.labels.isEmpty then ""
    else String.intercalate (" ") ((issue.labels.take 2).map (fun l => "`" ++ l ++ "`"))
  "- [#" ++ toString issue.number ++ "](" ++ issue.url ++ "): " ++ issue.title ++
    " " ++ labels_str ++ "\n"

/-- The discussion-topics section (lines 333-344). -/
def discussion_section_of (top_issues_by_repo : List (String × List IssueInfo)) : String :=
  let s := top_issues_by_repo.foldl
    (fun acc p =>
      if p.2.isEmpty then acc
      else acc ++ "\n**" ++ repo_short_name p.1 ++ ":**\n" ++
        String.join (p.2.map discussion_issue_line)) ""
  if s.isEmpty then "\n_No active issues to highlight_\n" else s

set_option linter.unusedVariables false in
/-- The `_render_template` method (lines 295-410): the complete agenda document.  The
two `datetime.now()` calls inside the template are the ambient clock `now`.
The `contributors` argument is accepted and unused, as in the source. -/
def render_template (now : Int) (meeting_date : String) (merged_prs open_prs : List PRInfo)
    (help_wanted : List IssueInfo) (contributors : List String) (release_info : ReleaseInfo)
    (next_meeting : String) (top_issues_by_repo : List (String × List IssueInfo)) : String :=
  let merged_count := merged_prs.length
  let review_count := open_prs.length
  let help_count := help_wanted.length
  let attention := attention_table open_prs merged_prs help_wanted
  let discussion_section := discussion_section_of top_issues_by_repo
  "# KubeStellar Community Meeting\n## \u011F\u0178\u201C\u2026 " ++
      meeting_date ++
      " | " ++
      CONFIG.meeting_time ++
      " | \u00E2\u00B1\u00EF\u00B8 30 min\n\n[Join](" ++
      CONFIG.meeting_link ++
      ") | [YouTube](" ++
      CONFIG.youtube_link ++
      ") | [Slack](" ++
      CONFIG.slack_channel ++
      ")\n\n---\n\n## \u011F\u0178\u00AF Decision Needed (5 min)\n> **_[Add focus topic before meeting]_**\n\nVote: \u011F\u0178\u2018 / \u011F\u0178\u2018 / \u011F\u0178\u2019\u00AC\n\n---\n\n## \u011F\u0178\u201D\u00A5 Repo Pulse (8 min)\n*Auto-generated " ++
      (strftime_now_ymd now) ++
      " | [Full PR list](https://github.com/kubestellar/kubestellar/pulls)*\n\n**Merged:** " ++
      (toString merged_count) ++
      " PRs | **Needs Review:** " ++
      (toString review_count) ++
      " PRs | **Help Wanted:** " ++
      (toString help_count) ++
      " issues\n\n### \u011F\u0178\u0161\u00A8 Attention Needed\n| Item | Why | Owner |\n|------|-----|-------|\n" ++
      attention ++
      "\n\n### \u011F\u0178\u2019\u00AC Top Issues to Discuss\n*From most active repos*\n" ++
      discussion_section ++
      "\n---\n\n## \u011F\u0178\u0161\u20AC Release (3 min)\n**Current:** [" ++
      release_info.version ++
      "](" ++
      release_info.url ++
      ") (" ++
      release_info.date ++
      ") | **Next:** _[version]_ - _[status]_\n\n---\n\n## \u011F\u0178\u201C\u00A2 Quick Updates (4 min)\n*30 sec each max - post details in Slack*\n\n- **LFX/IFOS:** _[one line or \"no update\"]_\n- **Events:** _[one line or \"no update\"]_  \n- **Integrations:** _[one line or \"no update\"]_\n\n---\n\n## \u011F\u0178\u2019\u00AC Open Mic (8 min)\n*Sign up in PR or Slack*\n\n| Slot | Who | Topic |\n|------|-----|-------|\n| 1 | _[name]_ | _[topic]_ |\n| 2 | _[name]_ | _[topic]_ |\n\n---\n\n## \u00E2\u0153\u2026 Actions\n| What | Who | Due |\n|------|-----|-----|\n| _[from last meeting]_ | | |\n\n---\n\n**Next:** " ++
      next_meeting ++
      " | \u011F\u0178\u2018\u00A5 _Add name in chat_\n\n<sub>Generated " ++
      (strftime_now_ymd_hm now) ++
      " UTC</sub>\n"

/-! ## The run (`generate_agenda`, lines 237-293)

`Env` is the external world: the clock and, per repository (and per label
for the help-wanted queries), the data each bounded API query would return,
or `Except.error ()` when it raises.  `generate_agenda` also returns the
list of fetch operations it performed, in order, so that properties about
*when* network calls happen can be stated. -/

/-- The kind of a fetch operation. -/
inductive FetchOp where
  | mergedPRs
  | openPRs
  | helpWanted
  | contributors
  | activityScore
  | discussionIssues
  | releaseFetch
deriving DecidableEq, Repr

/-- One performed fetch operation. -/
structure FetchEvent where
  op : FetchOp
  repo : String
deriving DecidableEq, Repr

/-- The external world of one run. -/
structure Env where
  now : Int
  merged_resp : String → Except Unit (List APIPR)
  open_resp : String → Except Unit (List APIPR)
  help_repo_resp : String → Except Unit Unit
  help_label_resp : String → String → Except Unit (List APIIssue)
  contributors_resp : String → Except Unit (List APIPR)
  activity_pr_resp : String → Except Unit (List APIPR)
  activity_issue_resp : String → Except Unit (List APIIssue)
  discussion_resp : String → Except Unit (List APIIssue)
  release_resp : String → Except Unit (List APIRelease)

/-- The `self.lookback_date` anchor (line 93): now minus the lookback window. -/
def Env.lookback_date (env : Env) : Int :=
  env.now - (CONFIG.lookback_days : Int) * secs_per_day

/-- The pooled merged-PR list before sorting (line 250). -/
def all_merged_prs (env : Env) : List PRInfo :=
  CONFIG.repos.flatMap (fun r => get_merged_prs env.lookback_date (env.merged_resp r))

/-- Descending order by `x.merged_at or datetime.min` used at line 257:
`none` (no merge time) is the minimal key. -/
def opt_time_le : Option Int → Option Int → Bool
  | none, _ => true
  | some _, none => false
  | some x, some y => decide (x ≤ y)

/-- The sort relation of line 257 (`key=lambda x: x.merged_at or
datetime.min, reverse=True`). -/
def merged_at_ge (a b : PRInfo) : Prop := opt_time_le b.merged_at a.merged_at = true

instance : DecidableRel merged_at_ge := fun a b =>
  instDecidableEqBool (opt_time_le b.merged_at a.merged_at) true

/-- The `all_merged_prs` pool after the global sort and the display cap
(lines 257-258). -/
def all_merged_prs_shown (env : Env) : List PRInfo :=
  ((all_merged_prs env).insertionSort merged_at_ge).take CONFIG.max_prs_to_show

/-- The pooled open-PR list: per-repository results concatenated in
configuration order (line 251); no global re-sort happens. -/
def all_open_prs (env : Env) : List PRInfo :=
  CONFIG.repos.flatMap (fun r => get_open_prs_needing_review env.now (env.open_resp r))

/-- The open-PR list after the display cap (line 259). -/
def all_open_prs_shown (env : Env) : List PRInfo :=
  (all_open_prs env).take CONFIG.max_prs_to_show

/-- The pooled help-wanted list (line 252). -/
def all_help_wanted (env : Env) : List IssueInfo :=
  CONFIG.repos.flatMap (fun r =>
    get_help_wanted_issues (env.help_repo_resp r) (env.help_label_resp r))

/-- The help-wanted list after the display cap (line 260). -/
def all_help_wanted_shown (env : Env) : List IssueInfo :=
  (all_help_wanted env).take CONFIG.max_issues_to_show

/-- The `all_contributors` set (lines 244, 253): a set accumulated across
repositories, modelled in first-insertion order. -/
def all_contributors (env : Env) : List String :=
  CONFIG.repos.foldl
    (fun acc r => (get_recent_contributors env.lookback_date (env.contributors_resp r)).foldl
      set_add acc) []

/-- The `repo_activity` dict (lines 245, 254): activity score per configured
repository, in configuration order. -/
def repo_activity (env : Env) : List (String × Nat) :=
  CONFIG.repos.map (fun r =>
    (r, get_repo_activity_score env.lookback_date (env.activity_pr_resp r)
        (env.activity_issue_resp r)))

/-- Descending order by score used at line 263 (`key=lambda x: x[1],
reverse=True`). -/
def score_ge (a b : String × Nat) : Prop := b.2 ≤ a.2

instance : DecidableRel score_ge := fun a b => Nat.decLe b.2 a.2

instance : IsTotal (String × Nat) score_ge := ⟨fun a b => Nat.le_total b.2 a.2⟩

instance : IsTrans (String × Nat) score_ge := ⟨fun _ _ _ h1 h2 => le_trans h2 h1⟩

/-- The `sorted_repos` list (line 263): repositories sorted by activity score,
descending (stable). -/
def sorted_repos (env : Env) : List (String × Nat) :=
  (repo_activity env).insertionSort score_ge

/-- The `top_repos` list (line 264): of the first 3 ranked repositories, those with
nonzero score. -/
def top_repos (env : Env) : List String :=
  ((sorted_repos env).take 3).filterMap (fun p => if 0 < p.2 then some p.1 else none)

/-- The `top_issues_by_repo` dict (lines 268-271). -/
def top_issues_by_repo (env : Env) : List (String × List IssueInfo) :=
  (top_repos env).map (fun r => (r, get_top_issues_for_discussion env.now (env.discussion_resp r) 2))

/-- The `release_info` dict (line 274): always from the main repository. -/
def release_info_of (env : Env) : ReleaseInfo :=
  get_release_info (env.release_resp ("kubestellar/kubestellar"))

/-- The fetch operations a run performs, in order: five per configured
repository (lines 248-254), one discussion lookup per top repository
(lines 269-271), then the release fetch (line 274).  All of them happen
before the meeting date is parsed at line 277. -/
def fetch_trace (env : Env) : List FetchEvent :=
  CONFIG.repos.flatMap (fun r =>
    [{ op := .mergedPRs, repo := r }, { op := .openPRs, repo := r },
     { op := .helpWanted, repo := r }, { op := .contributors, repo := r },
     { op := .activityScore, repo := r }])
  ++ (top_repos env).map (fun r => { op := .discussionIssues, repo := r })
  ++ [{ op := .releaseFetch, repo := "kubestellar/kubestellar" }]

/-- Lines 277-279: parse the meeting date, add 14 days, render `%m/%d/%Y`.
Defined separately so the next-meeting computation can be named. -/
def next_meeting_of (meeting_date : String) : Option String :=
  (date_parser_parse meeting_date).map
    (fun meeting_dt => strftime_mdy (datetime_add_days meeting_dt 14))

/-- The `generate_agenda` method (lines 237-293): all fetches run first; the meeting
date is parsed only at line 277, so an unparsable date raises (`none`)
*after* the recorded fetch trace.  On success the rendered document is
returned. -/
def generate_agenda (env : Env) (meeting_date : String) : List FetchEvent × Option String :=
  (fetch_trace env,
    match date_parser_parse meeting_date with
    | none => none
    | some meeting_dt =>
      some (render_template env.now meeting_date (all_merged_prs_shown env)
        (all_open_prs_shown env) (all_help_wanted_shown env) (all_contributors env)
        (release_info_of env) (strftime_mdy (datetime_add_days meeting_dt 14))
        (top_issues_by_repo env)))

/-! ## Concrete fixtures used by the verification scenarios -/

/-- An environment in which every API query raises. -/
def err_env : Env :=
  { now := 1800000000,
    merged_resp := fun _ => .error (), open_resp := fun _ => .error (),
    help_repo_resp := fun _ => .error (), help_label_resp := fun _ _ => .error (),
    contributors_resp := fun _ => .error (), activity_pr_resp := fun _ => .error (),
    activity_issue_resp := fun _ => .error (), discussion_resp := fun _ => .error (),
    release_resp := fun _ => .error () }

/-- An open API pull request created at the given time. -/
def api_pr_created (n : Nat) (created : Int) : APIPR :=
  { number := n, title := "t", user_login := "alice", html_url := "u", created_at := created }

/-- An API pull request last updated at the given time. -/
def api_pr_updated (n : Nat) (updated : Int) : APIPR :=
  { number := n, title := "t", user_login := "alice", html_url := "u", updated_at := updated }

/-- An API pull request merged (and last updated) at the given time. -/
def api_pr_merged (n : Nat) (merged : Int) : APIPR :=
  { number := n, title := "t", user_login := "alice", html_url := "u",
    merged_at := some merged, updated_at := merged }

/-- An API issue last updated at the given time. -/
def api_issue_updated (n : Nat) (updated : Int) : APIIssue :=
  { number := n, title := "t", user_login := "alice", html_url := "u", updated_at := updated }

/-- Environment for the open-PR pooling scenario: a 4-days-open PR in the
first configured repository, a 10-days-open PR in the second. -/
def c7_env : Env :=
  { err_env with
    open_resp := fun r =>
      if r == "kubestellar/kubestellar" then .ok [api_pr_created 1 (1800000000 - 4 * 86400)]
      else if r == "kubestellar/kubeflex" then .ok [api_pr_created 2 (1800000000 - 10 * 86400)]
      else .ok [] }

/-- Environment with one recently merged PR in the first repository. -/
def merged_env : Env :=
  { err_env with
    merged_resp := fun r =>
      if r == "kubestellar/kubestellar" then .ok [api_pr_merged 3 (1800000000 - 86400)]
      else .ok [] }

/-- Environment in which only `kubestellar/docs` shows recent activity. -/
def c8_env : Env :=
  { err_env with
    activity_pr_resp := fun r =>
      if r == "kubestellar/docs" then .ok [api_pr_updated 9 1799999999] else .error (),
    discussion_resp := fun _ => .ok [] }

/-- An open non-PR issue carrying two of the matching label aliases. -/
def dup_issue : APIIssue :=
  { number := 42, title := "dup", user_login := "alice", html_url := "u",
    labels := ["help wanted", "good first issue"] }

/-- Label queries that return `dup_issue` under both of its labels. -/
def dup_label_resp : String → Except Unit (List APIIssue) := fun ln =>
  if ln == "help wanted" || ln == "good first issue" then .ok [dup_issue] else .ok []

/-- An item flagged as a pull request that carries a matching label alias. -/
def pr_flagged_issue : APIIssue :=
  { number := 7, title := "pr", user_login := "alice", html_url := "u",
    labels := ["help wanted"], pull_request := true }

/-- Label queries that return the PR-flagged item for every alias. -/
def pr_label_resp : String → Except Unit (List APIIssue) := fun _ => .ok [pr_flagged_issue]

/-- A minimal open-PR record open for the given number of days. -/
def pr_open_days (n : Nat) (d : Int) : PRInfo :=
  { number := n, title := "t", author := "alice", url := "u", days_open := d }

/-- Stale-PR scenario records: open 5, 8, 10, 15 and 20 days. -/
def pr_open_5 : PRInfo := pr_open_days 105 5

def pr_open_8 : PRInfo := pr_open_days 108 8

def pr_open_10 : PRInfo := pr_open_days 110 10

def pr_open_15 : PRInfo := pr_open_days 115 15

def pr_open_20 : PRInfo := pr_open_days 120 20

theorem opt_time_le_total (x y : Option Int) :
    opt_time_le x y = true ∨ opt_time_le y x = true := by
  cases x <;> cases y <;> simp [opt_time_le] <;> omega

theorem opt_time_le_trans {x y z : Option Int} (h1 : opt_time_le x y = true)
    (h2 : opt_time_le y z = true) : opt_time_le x z = true := by
  cases x <;> cases y <;> cases z <;> simp_all [opt_time_le] <;> omega

instance : IsTotal PRInfo merged_at_ge :=
  ⟨fun a b => opt_time_le_total b.merged_at a.merged_at⟩

instance : IsTrans PRInfo merged_at_ge :=
  ⟨fun _ _ _ h1 h2 => opt_time_le_trans h2 h1⟩

/-! ## Helper lemmas -/

/-- A fold that conditionally appends one row per element is a
filter-then-map. -/
theorem foldl_snoc_ite {α β : Type _} (p : α → Prop) [DecidablePred p] (f : α → β) :
    ∀ (l : List α) (init : List β),
      l.foldl (fun acc x => if p x then acc ++ [f x] else acc) init
        = init ++ (l.filter (fun x => decide (p x))).map f := by
  intro l
  induction l with
  | nil => intro init; simp
  | cons x xs ih =>
    intro init
    by_cases h : p x <;> simp [h, ih, List.filter_cons]

/-- A fold that appends one row per element is a map. -/
theorem foldl_snoc_all {α β : Type _} (f : α → β) :
    ∀ (l : List α) (init : List β),
      l.foldl (fun acc x => acc ++ [f x]) init = init ++ l.map f := by
  intro l
  induction l with
  | nil => intro init; simp
  | cons x xs ih => intro init; simp [ih]

/-- The `attention_items` list decomposed: stale rows from the first 3 open PRs,
breaking-change rows from the first 2 merged PRs, help-wanted rows from the
first 2 issues. -/
theorem attention_items_eq (open_prs merged_prs : List PRInfo) (help_wanted : List IssueInfo) :
    attention_items open_prs merged_prs help_wanted
      = ((open_prs.take 3).filter (fun pr => 7 ≤ pr.days_open)).map stale_pr_row
        ++ ((merged_prs.take 2).filter (fun pr => pr.labels.any is_breaking_label)).map
            breaking_pr_row
        ++ (help_wanted.take 2).map help_wanted_row := by
  simp only [attention_items]
  rw [foldl_snoc_ite (fun pr : PRInfo => 7 ≤ pr.days_open) stale_pr_row,
    foldl_snoc_ite (fun pr : PRInfo => pr.labels.any is_breaking_label = true) breaking_pr_row,
    foldl_snoc_all help_wanted_row]
  simp only [List.nil_append, List.append_assoc, Bool.decide_eq_true]

/-- Every record produced by the open-PR loop is open at least 3 days. -/
theorem mem_open_prs_loop_min_days {now : Int} :
    ∀ {l : List APIPR} {pr : PRInfo}, pr ∈ open_prs_loop now l → 3 ≤ pr.days_open := by
  intro l
  induction l with
  | nil => intro pr h; simp [open_prs_loop] at h
  | cons x xs ih =>
    intro pr h
    rw [open_prs_loop] at h
    by_cases hc : 3 ≤ timedelta_days (now - x.created_at)
    · rw [if_pos hc] at h
      rcases List.mem_cons.mp h with heq | hmem
      · subst heq; exact hc
      · exact ih hmem
    · rw [if_neg hc] at h
      exact ih h

/-- Once a PR with update time before the anchor is reached, the PR scan of
the activity score ignores everything after it. -/
theorem activity_pr_loop_break (lookback_date : Int) (p : APIPR)
    (hp : p.updated_at < lookback_date) :
    ∀ (l1 l2 : List APIPR),
      activity_pr_loop lookback_date (l1 ++ p :: l2)
        = activity_pr_loop lookback_date (l1 ++ [p]) := by
  intro l1
  induction l1 with
  | nil =>
    intro l2
    have h1 : ¬ lookback_date < p.updated_at := by omega
    simp [activity_pr_loop, h1]
  | cons q l1 ih =>
    intro l2
    by_cases h : lookback_date < q.updated_at <;>
      simp [activity_pr_loop, h, ih]

/-- Once an issue with update time before the anchor is reached, the issue
scan of the activity score ignores everything after it. -/
theorem activity_issue_loop_break (lookback_date : Int) (p : APIIssue)
    (hp : p.updated_at < lookback_date) :
    ∀ (l1 l2 : List APIIssue),
      activity_issue_loop lookback_date (l1 ++ p :: l2)
        = activity_issue_loop lookback_date (l1 ++ [p]) := by
  intro l1
  induction l1 with
  | nil =>
    intro l2
    have h1 : ¬ lookback_date < p.updated_at := by omega
    simp [activity_issue_loop, h1, hp]
  | cons q l1 ih =>
    intro l2
    by_cases h : (!q.pull_request && decide (lookback_date < q.updated_at)) = true
    · simp [activity_issue_loop, h, ih]
    · by_cases h2 : q.updated_at < lookback_date <;>
        simp [activity_issue_loop, h, h2, ih]

/-- Everything the label loop of `get_help_wanted_issues` adds on top of its
accumulator is the image of a non-PR item of some label alias's query. -/
theorem mem_help_wanted_foldl (label_resp : String → Except Unit (List APIIssue)) :
    ∀ (labels : List String) (acc : List IssueInfo) (info : IssueInfo),
      info ∈ labels.foldl (help_wanted_step label_resp) acc →
      info ∈ acc ∨ ∃ ln, ln ∈ labels ∧ ∃ items, label_resp ln = .ok items
        ∧ ∃ issue, issue ∈ items ∧ issue.pull_request = false
          ∧ info = issue_to_help_info issue := by
  intro labels
  induction labels with
  | nil => intro acc info h; exact .inl h
  | cons ln rest ih =>
    intro acc info h
    rw [List.foldl_cons] at h
    rcases ih _ info h with hacc | ⟨ln', hln', items, hresp, issue, hmem, hpr, heq⟩
    · unfold help_wanted_step at hacc
      cases hresp : label_resp ln with
      | error e => rw [hresp] at hacc; exact .inl hacc
      | ok items =>
        rw [hresp] at hacc
        rcases List.mem_append.mp hacc with h1 | h2
        · exact .inl h1
        · rcases List.mem_map.mp h2 with ⟨issue, hmem, heq⟩
          have hfil := List.mem_filter.mp hmem
          refine .inr ⟨ln, List.mem_cons_self ln rest, items, hresp, issue, hfil.1, ?_, heq.symm⟩
          simpa using hfil.2
    · exact .inr ⟨ln', List.mem_cons_of_mem ln hln', items, hresp, issue, hmem, hpr, heq⟩

/-! ## Claims -/

/-- C1: the claim says an unparsable meeting date makes `generate_agenda`
raise *before* any fetch operation.  The code parses the date only at line
277, after every fetch (lines 248-274): on the unparsable input
`"not-a-date"` the run does raise (`none`), yet its fetch trace is the full
nonempty trace — it contains, e.g., the merged-PR fetch of the first
configured repository — and in general the performed fetches are the whole
`fetch_trace`, independent of the meeting-date argument. -/
theorem C1_unparsable_date_raises_after_fetches :
    date_parser_parse ("not-a-date") = none
    ∧ (generate_agenda err_env ("not-a-date")).2 = none
    ∧ (generate_agenda err_env ("not-a-date")).1 ≠ []
    ∧ ({ op := FetchOp.mergedPRs, repo := "kubestellar/kubestellar" } : FetchEvent)
        ∈ (generate_agenda err_env ("not-a-date")).1
    ∧ ∀ (env : Env) (s : String), (generate_agenda env s).1 = fetch_trace env :=
  ⟨by decide, by decide, by decide, by decide, fun _ _ => rfl⟩

/-- C2: the activity score is a nonnegative integer, and in both scans of
`get_repo_activity_score` no item after one whose update time precedes the
lookback anchor contributes: the loops compute the same score whether or
not anything follows that item. -/
theorem C2_activity_score_nonneg_early_exit (lookback_date : Int)
    (pr_resp : Except Unit (List APIPR)) (issue_resp : Except Unit (List APIIssue)) :
    0 ≤ get_repo_activity_score lookback_date pr_resp issue_resp
    ∧ (∀ (l1 l2 : List APIPR) (p : APIPR), p.updated_at < lookback_date →
        activity_pr_loop lookback_date (l1 ++ p :: l2)
          = activity_pr_loop lookback_date (l1 ++ [p]))
    ∧ (∀ (l1 l2 : List APIIssue) (p : APIIssue), p.updated_at < lookback_date →
        activity_issue_loop lookback_date (l1 ++ p :: l2)
          = activity_issue_loop lookback_date (l1 ++ [p])) :=
  ⟨Nat.zero_le _,
    fun l1 l2 p hp => activity_pr_loop_break lookback_date p hp l1 l2,
    fun l1 l2 p hp => activity_issue_loop_break lookback_date p hp l1 l2⟩

/-- Witness for C2 at a concrete input: with anchor 0, a scan that meets an
item updated at -86400 (before the anchor) yields the same score whether a
later-listed item (updated at 86400) follows it or not. -/
theorem C2_witness :
    activity_pr_loop 0 ([api_pr_updated 1 86400] ++ api_pr_updated 2 (-86400) :: [api_pr_updated 3 86400])
      = activity_pr_loop 0 ([api_pr_updated 1 86400] ++ [api_pr_updated 2 (-86400)]) :=
  (C2_activity_score_nonneg_early_exit 0 (.ok []) (.ok [])).2.1
    [api_pr_updated 1 86400] [api_pr_updated 3 86400] (api_pr_updated 2 (-86400)) (by decide)

/-- C5: every fetch operation is independently fault-tolerant: a raising
API query yields the empty list (or, for the release fetch, the sentinel
record), and a run whose meeting date parses always produces a document,
whatever the fetch responses. -/
theorem C5_fetches_fault_tolerant :
    (∀ lookback_date, get_merged_prs lookback_date (.error ()) = [])
    ∧ (∀ now, get_open_prs_needing_review now (.error ()) = [])
    ∧ (∀ label_resp, get_help_wanted_issues (.error ()) label_resp = [])
    ∧ (∀ lookback_date, get_recent_contributors lookback_date (.error ()) = [])
    ∧ (∀ lookback_date issue_resp,
        get_repo_activity_score lookback_date (.error ()) issue_resp = 0)
    ∧ (∀ now limit, get_top_issues_for_discussion now (.error ()) limit = [])
    ∧ get_release_info (.error ()) = { version := "Unknown", url := "#", date := "N/A" }
    ∧ (∀ (env : Env) (s : String) (dt : Date), date_parser_parse s = some dt →
        ((generate_agenda env s).2).isSome = true) := by
  refine ⟨fun _ => rfl, fun _ => rfl, fun _ => rfl, fun _ => rfl, fun _ _ => rfl,
    fun _ limit => by simp [get_top_issues_for_discussion], rfl, ?_⟩
  intro env s dt h
  simp [generate_agenda, h]

/-- Witness for C5 at a concrete input: with every query raising, the run
on the parsable date `2026-01-08` still produces a document. -/
theorem C5_witness :
    ((generate_agenda err_env ("2026-01-08")).2).isSome = true :=
  C5_fetches_fault_tolerant.2.2.2.2.2.2.2 err_env ("2026-01-08")
    { year := 2026, month := 1, day := 8 } (by decide)

/-- C9: the next-meeting date is the parsed input date plus 14 days,
rendered `%m/%d/%Y`; in particular `2026-01-08` yields `01/22/2026`, and a
run on that date embeds exactly that string as its next-meeting value. -/
theorem C9_next_meeting_14_days :
    next_meeting_of ("2026-01-08") = some ("01/22/2026")
    ∧ (∀ (s : String) (dt : Date), date_parser_parse s = some dt →
        next_meeting_of s = some (strftime_mdy (datetime_add_days dt 14)))
    ∧ (∀ env : Env, (generate_agenda env ("2026-01-08")).2
        = some (render_template env.now ("2026-01-08") (all_merged_prs_shown env)
            (all_open_prs_shown env) (all_help_wanted_shown env) (all_contributors env)
            (release_info_of env) ("01/22/2026") (top_issues_by_repo env))) := by
  refine ⟨by decide, ?_, ?_⟩
  · intro s dt h
    simp [next_meeting_of, h]
  · intro env
    have h : date_parser_parse ("2026-01-08") = some { year := 2026, month := 1, day := 8 } := by
      decide
    have h2 : strftime_mdy (datetime_add_days { year := 2026, month := 1, day := 8 } 14)
        = "01/22/2026" := by decide
    simp [generate_agenda, h, h2]

/-- Witness for C9 at a concrete input: the date `2026-03-01` parses, and
its next-meeting string is the rendering of that date plus 14 days. -/
theorem C9_witness :
    next_meeting_of ("2026-03-01")
      = some (strftime_mdy (datetime_add_days { year := 2026, month := 3, day := 1 } 14)) :=
  C9_next_meeting_14_days.2.1 ("2026-03-01") { year := 2026, month := 3, day := 1 } (by decide)

/-- C3: every record returned by `get_open_prs_needing_review` has been
open at least 3 integer days, and the returned list is sorted descending by
`days_open`. -/
theorem C3_open_prs_min_3_days_sorted_desc (now : Int) (resp : Except Unit (List APIPR)) :
    (∀ pr ∈ get_open_prs_needing_review now resp, 3 ≤ pr.days_open)
    ∧ List.Pairwise (fun a b => b.days_open ≤ a.days_open)
        (get_open_prs_needing_review now resp) := by
  constructor
  · intro pr hmem
    simp only [get_open_prs_needing_review, List.mem_insertionSort] at hmem
    cases resp with
    | error e => simp at hmem
    | ok items => exact mem_open_prs_loop_min_days hmem
  · have h := List.sorted_insertionSort (r := days_open_ge)
      (match resp with
        | .error _ => []
        | .ok items => open_prs_loop now (items.take 30))
    simpa [get_open_prs_needing_review, List.Sorted, days_open_ge] using h

/-- Witness for C3 at a concrete input: one open PR created 4 days before
`now` comes back as a record with `days_open = 4 ≥ 3`. -/
theorem C3_witness :
    3 ≤ ({ number := 1, title := "t", author := "alice", url := "u",
           created_at := some (1800000000 - 4 * 86400), days_open := 4 } : PRInfo).days_open :=
  (C3_open_prs_min_3_days_sorted_desc 1800000000
      (.ok [api_pr_created 1 (1800000000 - 4 * 86400)])).1
    { number := 1, title := "t", author := "alice", url := "u",
      created_at := some (1800000000 - 4 * 86400), days_open := 4 } (by decide)

/-- C4: everything `get_help_wanted_issues` returns is the image of an item
that is not flagged as a pull request (found under one of the label
aliases); there is no deduplication across aliases — a non-PR issue
carrying two matching labels comes back twice — while a PR-flagged item is
excluded even when every alias query returns it. -/
theorem C4_help_wanted_excludes_prs_no_dedup :
    (∀ (repo_resp : Except Unit Unit) (label_resp : String → Except Unit (List APIIssue))
        (info : IssueInfo), info ∈ get_help_wanted_issues repo_resp label_resp →
      ∃ issue, issue.pull_request = false ∧ info = issue_to_help_info issue
        ∧ ∃ ln, ln ∈ help_wanted_labels
            ∧ ∃ items, label_resp ln = .ok items ∧ issue ∈ items)
    ∧ get_help_wanted_issues (.ok ()) dup_label_resp
        = [issue_to_help_info dup_issue, issue_to_help_info dup_issue]
    ∧ get_help_wanted_issues (.ok ()) pr_label_resp = [] := by
  refine ⟨?_, by decide, by decide⟩
  intro repo_resp label_resp info hmem
  cases repo_resp with
  | error e => simp [get_help_wanted_issues] at hmem
  | ok u =>
    simp only [get_help_wanted_issues] at hmem
    rcases mem_help_wanted_foldl label_resp help_wanted_labels [] info hmem with
      h0 | ⟨ln, hln, items, hresp, issue, hmem2, hpr, heq⟩
    · simp at h0
    · exact ⟨issue, hpr, heq, ln, hln, items, hresp, hmem2⟩

/-- Witness for C4 at a concrete input: the duplicated record returned for
`dup_issue` indeed stems from a non-PR item of some alias query. -/
theorem C4_witness :
    ∃ issue, issue.pull_request = false
      ∧ issue_to_help_info dup_issue = issue_to_help_info issue
      ∧ ∃ ln, ln ∈ help_wanted_labels
          ∧ ∃ items, dup_label_resp ln = .ok items ∧ issue ∈ items :=
  C4_help_wanted_excludes_prs_no_dedup.1 (.ok ()) dup_label_resp
    (issue_to_help_info dup_issue) (by decide)

/-- C6: attention-table construction.  Of stale PRs open 20, 10 and 5 days
exactly the 20- and 10-day rows appear; 14 days and up get the high-tier
marker, 7 to 13 days the elevated one, and those two markers differ; every
row of the table comes from a stale (7-day) open PR among the first 3, a
breaking-change merged PR among the first 2, or one of the first 2
help-wanted issues; the table shows at most 5 rows; and with no input at
all it is exactly the all-clear placeholder row. -/
theorem C6_attention_table_construction :
    attention_items [pr_open_20, pr_open_10, pr_open_5] [] []
        = [stale_pr_row pr_open_20, stale_pr_row pr_open_10]
    ∧ (∀ d : Int, 14 ≤ d → urgency_marker d = "\u011F\u0178\u201D\u00B4")
    ∧ (∀ d : Int, 7 ≤ d → d < 14 → urgency_marker d = "\u011F\u0178\u0178\u00A0")
    ∧ urgency_marker pr_open_20.days_open ≠ urgency_marker pr_open_10.days_open
    ∧ (∀ (op mp : List PRInfo) (hw : List IssueInfo) (s : String),
        s ∈ attention_items op mp hw →
        (∃ pr, pr ∈ op.take 3 ∧ 7 ≤ pr.days_open ∧ s = stale_pr_row pr)
        ∨ (∃ pr, pr ∈ mp.take 2 ∧ pr.labels.any is_breaking_label = true
            ∧ s = breaking_pr_row pr)
        ∨ (∃ issue, issue ∈ hw.take 2 ∧ s = help_wanted_row issue))
    ∧ (∀ (op mp : List PRInfo) (hw : List IssueInfo),
        attention_table op mp hw = all_clear_row
        ∨ ∃ rows, rows ≠ [] ∧ rows.length ≤ 5
            ∧ (∀ s ∈ rows, s ∈ attention_items op mp hw)
            ∧ attention_table op mp hw = String.intercalate ("\n") rows)
    ∧ attention_table [] [] [] = "| âœ… | All clear this sprint! | - |" := by
  refine ⟨by decide, ?_, ?_, by decide, ?_, ?_, by decide⟩
  · intro d h
    unfold urgency_marker
    rw [if_neg (by omega)]
  · intro d h1 h2
    unfold urgency_marker
    rw [if_pos h2]
  · intro op mp hw s hs
    rw [attention_items_eq] at hs
    rcases List.mem_append.mp hs with h12 | h3
    · rcases List.mem_append.mp h12 with h1 | h2
      · rcases List.mem_map.mp h1 with ⟨pr, hpr, heq⟩
        have hf := List.mem_filter.mp hpr
        exact .inl ⟨pr, hf.1, by simpa using hf.2, heq.symm⟩
      · rcases List.mem_map.mp h2 with ⟨pr, hpr, heq⟩
        have hf := List.mem_filter.mp hpr
        exact .inr (.inl ⟨pr, hf.1, hf.2, heq.symm⟩)
    · rcases List.mem_map.mp h3 with ⟨issue, hi, heq⟩
      exact .inr (.inr ⟨issue, hi, heq.symm⟩)
  · intro op mp hw
    by_cases h : (attention_items op mp hw).isEmpty = true
    · left
      simp only [attention_table, h, if_pos]
    · right
      refine ⟨(attention_items op mp hw).take 5, ?_, List.length_take_le 5 _, ?_, ?_⟩
      · have hne : attention_items op mp hw ≠ [] := by simpa using h
        cases hitems : attention_items op mp hw with
        | nil => exact absurd hitems hne
        | cons a t => simp [hitems]
      · intro s hsmem
        exact List.mem_of_mem_take hsmem
      · simp only [attention_table, h]
        rw [if_neg (by simp [h])]

/-- Witness for C6 at a concrete input: the single row of the table built
from the 20-days-open PR alone comes from a stale open PR among the first
three. -/
theorem C6_witness :
    (∃ pr, pr ∈ ([pr_open_20] : List PRInfo).take 3 ∧ 7 ≤ pr.days_open
        ∧ stale_pr_row pr_open_20 = stale_pr_row pr)
    ∨ (∃ pr, pr ∈ ([] : List PRInfo).take 2 ∧ pr.labels.any is_breaking_label = true
        ∧ stale_pr_row pr_open_20 = breaking_pr_row pr)
    ∨ (∃ issue, issue ∈ ([] : List IssueInfo).take 2
        ∧ stale_pr_row pr_open_20 = help_wanted_row issue) :=
  C6_attention_table_construction.2.2.2.2.1 [pr_open_20] [] []
    (stale_pr_row pr_open_20) (by decide)

/-- C10: the attention table examines only the first 3 open PRs, the first
2 merged PRs and the first 2 help-wanted issues, so it holds at most 3
stale rows, 2 breaking-change rows and 2 help-wanted rows; among four PRs
all open at least 7 days (sorted descending) only the first three produce
rows, and the 8-days-open PR ranked fourth appears nowhere. -/
theorem C10_attention_first_items_only :
    (∀ (op mp : List PRInfo) (hw : List IssueInfo),
      attention_items op mp hw
        = ((op.take 3).filter (fun pr => 7 ≤ pr.days_open)).map stale_pr_row
          ++ ((mp.take 2).filter (fun pr => pr.labels.any is_breaking_label)).map
              breaking_pr_row
          ++ (hw.take 2).map help_wanted_row)
    ∧ (∀ op : List PRInfo,
        (((op.take 3).filter (fun pr => 7 ≤ pr.days_open)).map stale_pr_row).length ≤ 3)
    ∧ (∀ mp : List PRInfo,
        (((mp.take 2).filter (fun pr => pr.labels.any is_breaking_label)).map
            breaking_pr_row).length ≤ 2)
    ∧ (∀ hw : List IssueInfo, ((hw.take 2).map help_wanted_row).length ≤ 2)
    ∧ attention_items [pr_open_20, pr_open_15, pr_open_10, pr_open_8] [] []
        = [stale_pr_row pr_open_20, stale_pr_row pr_open_15, stale_pr_row pr_open_10]
    ∧ stale_pr_row pr_open_8
        ∉ attention_items [pr_open_20, pr_open_15, pr_open_10, pr_open_8] [] [] := by
  refine ⟨attention_items_eq, ?_, ?_, ?_, by decide, by decide⟩
  · intro op
    simp only [List.length_map]
    exact le_trans (List.length_filter_le _ _) (List.length_take_le 3 op)
  · intro mp
    simp only [List.length_map]
    exact le_trans (List.length_filter_le _ _) (List.length_take_le 2 mp)
  · intro hw
    simp only [List.length_map]
    exact List.length_take_le 2 hw

/-- C7: the pooled merged-PR list is globally sorted descending by merge
time (`none` as minimal key) and truncated to the cap of 8, each shown
entry coming from the pool; the shown open-PR list is literally the
concatenation of the per-repository lists — each sorted by `days_open` —
truncated to the same cap with no global re-sort: with a 4-days-open PR in
the first repository and a 10-days-open PR in the second, the shown list is
`[4-day, 10-day]`, not descending. -/
theorem C7_pooled_sorting_and_caps :
    (∀ env : Env, List.Pairwise merged_at_ge (all_merged_prs_shown env))
    ∧ (∀ env : Env, (all_merged_prs_shown env).length ≤ CONFIG.max_prs_to_show)
    ∧ (∀ (env : Env) (pr : PRInfo), pr ∈ all_merged_prs_shown env → pr ∈ all_merged_prs env)
    ∧ (∀ env : Env, all_open_prs_shown env
        = ((CONFIG.repos.map
              (fun r => get_open_prs_needing_review env.now (env.open_resp r))).flatten).take
            CONFIG.max_prs_to_show)
    ∧ (∀ (env : Env) (l : List PRInfo),
        l ∈ CONFIG.repos.map (fun r => get_open_prs_needing_review env.now (env.open_resp r)) →
        List.Pairwise (fun a b => b.days_open ≤ a.days_open) l)
    ∧ (all_open_prs_shown c7_env).map (fun p => (p.number, p.days_open)) = [(1, 4), (2, 10)] := by
  refine ⟨?_, ?_, ?_, fun env => rfl, ?_, by decide⟩
  · intro env
    exact List.Pairwise.sublist (List.take_sublist _ _)
      (List.sorted_insertionSort (r := merged_at_ge) (all_merged_prs env))
  · intro env
    exact List.length_take_le _ _
  · intro env pr h
    exact (List.mem_insertionSort _).mp (List.mem_of_mem_take h)
  · intro env l hl
    rcases List.mem_map.mp hl with ⟨r, hr, rfl⟩
    have h := List.sorted_insertionSort (r := days_open_ge)
      (match env.open_resp r with
        | .error _ => []
        | .ok items => open_prs_loop env.now (items.take 30))
    simpa [get_open_prs_needing_review, List.Sorted, days_open_ge] using h

/-- Witness for C7 at a concrete input: the merged PR shown for
`merged_env` indeed belongs to the pooled merged list. -/
theorem C7_witness :
    ({ number := 3, title := "t", author := "alice", url := "u",
       merged_at := some (1800000000 - 86400) } : PRInfo) ∈ all_merged_prs merged_env :=
  C7_pooled_sorting_and_caps.2.2.1 merged_env
    { number := 3, title := "t", author := "alice", url := "u",
      merged_at := some (1800000000 - 86400) } (by decide)

/-- C8: repositories are ranked by activity score descending; a discussion
fetch is performed for a repository exactly when it is among the nonzero-
score members of the top 3; each such repository really sits in the top 3
with positive score; and a zero-score repository never reaches the
discussion lookup. -/
theorem C8_top_repos_nonzero_top3 :
    (∀ env : Env, List.Pairwise (fun a b : String × Nat => b.2 ≤ a.2) (sorted_repos env))
    ∧ (∀ (env : Env) (s r : String),
        ({ op := FetchOp.discussionIssues, repo := r } : FetchEvent) ∈ (generate_agenda env s).1
          ↔ r ∈ top_repos env)
    ∧ (∀ (env : Env) (r : String), r ∈ top_repos env →
        ∃ sc, (r, sc) ∈ (sorted_repos env).take 3 ∧ 0 < sc)
    ∧ (∀ (env : Env) (r : String),
        get_repo_activity_score env.lookback_date (env.activity_pr_resp r)
            (env.activity_issue_resp r) = 0 →
        r ∉ top_repos env) := by
  have key : ∀ (env : Env) (r : String), r ∈ top_repos env →
      ∃ sc, (r, sc) ∈ (sorted_repos env).take 3 ∧ 0 < sc := by
    intro env r h
    rcases List.mem_filterMap.mp h with ⟨p, hp, hif⟩
    by_cases h2 : 0 < p.2
    · rw [if_pos h2] at hif
      obtain rfl : p.1 = r := Option.some.inj hif
      exact ⟨p.2, by simpa using hp, h2⟩
    · rw [if_neg h2] at hif
      cases hif
  refine ⟨?_, ?_, key, ?_⟩
  · intro env
    have h := List.sorted_insertionSort (r := score_ge) (repo_activity env)
    simpa [sorted_repos, List.Sorted, score_ge] using h
  · intro env s r
    show _ ∈ fetch_trace env ↔ _
    simp [fetch_trace, CONFIG]
  · intro env r hzero hmem
    obtain ⟨sc, hsc, hpos⟩ := key env r hmem
    have h1 : (r, sc) ∈ sorted_repos env := List.mem_of_mem_take hsc
    have h2 : (r, sc) ∈ repo_activity env := (List.mem_insertionSort _).mp h1
    rcases List.mem_map.mp h2 with ⟨r', hr', heq⟩
    have h3 : r' = r := congrArg Prod.fst heq
    have h4 := congrArg Prod.snd heq
    simp only at h4
    rw [h3, hzero] at h4
    omega

/-- Witness for C8 at a concrete input: in an environment where only
`kubestellar/docs` shows activity, the zero-score `kubestellar/ui` is not
among the repositories whose discussion issues are fetched. -/
theorem C8_witness :
    ("kubestellar/ui" ∉ top_repos c8_env)
    ∧ ∃ sc, ("kubestellar/docs", sc) ∈ (sorted_repos c8_env).take 3 ∧ 0 < sc :=
  ⟨C8_top_repos_nonzero_top3.2.2.2 c8_env ("kubestellar/ui") (by decide),
    C8_top_repos_nonzero_top3.2.2.1 c8_env ("kubestellar/docs") (by decide)⟩
